import Mathlib

/-!
Zenaflow access-resolution and message-deduplication core: a shallow
embedding. This file embeds, in Lean 4, the SQL data model and operations
of the zenaflow repository:

* the `users`, `applications`, `user_applications` and `chat_messages`
  tables of the Vader bot schema (`src/unnamed/part_003`), with their CHECK
  constraints and unique indexes;
* the `resolve_user_app_access` plpgsql function of
  `doc/migrations/002_digital_twin_memory.sql`;
* the message-intake statements of the Deanna plan
  (`doc/migrations/001_deanna_cognitive_brain_plan.md`) and the query
  reference (`src/unnamed/part_000`): the `INSERT ... ON CONFLICT DO
  NOTHING RETURNING message_id` intake (spec name `record_if_new`) and the
  unconditional `UPDATE chat_messages` statements used to complete or fail
  a message.

UUID columns are modelled as `Nat`, `TIMESTAMPTZ` and `BIGINT` as `Int`,
`JSONB` payloads as association lists of string keys to string values
(only text extraction `->>` and key-existence `?` are used by the schema).
SQL `NULL` is `Option.none`.
-/

namespace Zenaflow

/-- SQL `trim(text)`: strip space characters from both ends
(Postgres `trim` without an explicit character set removes spaces). -/
def sqlTrim (s : String) : String :=
  String.mk (((s.toList.dropWhile (· == ' ')).reverse.dropWhile (· == ' ')).reverse)

/-- SQL `lower(text)` on the ASCII handles this schema stores. -/
def sqlLower (s : String) : String :=
  String.mk (s.toList.map Char.toLower)

/-- JSONB text extraction `payload ->> key`: the value at a key, if present
(first binding wins, as a JSONB object has unique keys). -/
def jsonbText (payload : List (String × String)) (key : String) : Option String :=
  (payload.find? (fun kv => kv.1 == key)).map (fun kv => kv.2)

/-- JSONB key-existence `payload ? key`. -/
def jsonbHasKey (payload : List (String × String)) (key : String) : Bool :=
  payload.any (fun kv => kv.1 == key)

/-- A row of the `users` table (schema v2.2 plus the
`telegram_user_id BIGINT` column added by migration 002). -/
structure UserRow where
  user_id : Nat
  telegram_id : Option String
  phone_number : Option String
  email : Option String
  display_name : String
  is_admin : Bool
  status : String
  active_after : Option Int
  created_at : Int
  telegram_user_id : Option Int
  deriving Repr, DecidableEq

/-- `CONSTRAINT chk_users_contact_method_required CHECK (telegram_id IS NOT
NULL OR phone_number IS NOT NULL)`. -/
def chk_users_contact_method_required (u : UserRow) : Bool :=
  u.telegram_id.isSome || u.phone_number.isSome

/-- `CONSTRAINT chk_users_status_valid CHECK (status IN ('active',
'blocked', 'suspended'))`. -/
def chk_users_status_valid (u : UserRow) : Bool :=
  u.status == "active" || u.status == "blocked" || u.status == "suspended"

/-- `CONSTRAINT chk_users_suspended_active_after CHECK ((status =
'suspended' AND active_after IS NOT NULL) OR (status != 'suspended'))`. -/
def chk_users_suspended_active_after (u : UserRow) : Bool :=
  (u.status == "suspended" && u.active_after.isSome) || !(u.status == "suspended")

/-- All CHECK constraints of the `users` table: what the store verifies on
each single row at write time. -/
def userRowChecks (u : UserRow) : Bool :=
  chk_users_contact_method_required u &&
  chk_users_status_valid u &&
  chk_users_suspended_active_after u

/-- SQL `UNIQUE` conflict between two `users` rows: `telegram_id`,
`phone_number`, `email` are declared `UNIQUE`, and migration 002 adds the
partial unique index `idx_users_telegram_user_id` on `telegram_user_id`
`WHERE telegram_user_id IS NOT NULL`. Two `NULL`s never conflict. -/
def userUniqueConflict (a b : UserRow) : Bool :=
  (match a.telegram_id, b.telegram_id with
   | some x, some y => x == y
   | _, _ => false) ||
  (match a.phone_number, b.phone_number with
   | some x, some y => x == y
   | _, _ => false) ||
  (match a.email, b.email with
   | some x, some y => x == y
   | _, _ => false) ||
  (match a.telegram_user_id, b.telegram_user_id with
   | some x, some y => x == y
   | _, _ => false)

/-- Inserting a row into `users`: the store rejects the row when a CHECK
constraint fails or a unique index conflicts with an existing row;
otherwise the row is stored. -/
def insertUser (db : List UserRow) (u : UserRow) : Except String (List UserRow) :=
  if !(userRowChecks u) then .error "check constraint violation"
  else if db.any (fun v => userUniqueConflict v u) then .error "unique constraint violation"
  else .ok (db ++ [u])

/-- A row of the `applications` table (columns the resolver reads). -/
structure ApplicationRow where
  app_id : Nat
  app_name : String
  is_active : Bool
  deriving Repr, DecidableEq

/-- A row of the `user_applications` junction table. -/
structure UserAppRow where
  user_app_id : Nat
  user_id : Nat
  app_id : Nat
  deriving Repr, DecidableEq

/-- A row of the `chat_messages` table. `source_payload` is the JSONB
blob; the schema reads only its text fields. -/
structure ChatMessageRow where
  message_id : Nat
  user_app_id : Nat
  request_text : String
  response_text : Option String
  alt_response_text : Option String
  source_payload : List (String × String)
  status : String
  error_message : Option String
  requested_at : Int
  responded_at : Option Int
  deriving Repr, DecidableEq

/-- `CONSTRAINT chk_chat_messages_status_valid CHECK (status IN ('pending',
'completed', 'failed', 'timeout'))`. -/
def chk_chat_messages_status_valid (m : ChatMessageRow) : Bool :=
  m.status == "pending" || m.status == "completed" ||
  m.status == "failed" || m.status == "timeout"

/-- `CONSTRAINT chk_chat_messages_completed_integrity CHECK ((status =
'completed' AND response_text IS NOT NULL AND responded_at IS NOT NULL) OR
(status != 'completed'))`. -/
def chk_chat_messages_completed_integrity (m : ChatMessageRow) : Bool :=
  (m.status == "completed" && m.response_text.isSome && m.responded_at.isSome) ||
  !(m.status == "completed")

/-- `CONSTRAINT chk_chat_messages_failed_integrity CHECK ((status =
'failed' AND error_message IS NOT NULL) OR (status != 'failed'))`. -/
def chk_chat_messages_failed_integrity (m : ChatMessageRow) : Bool :=
  (m.status == "failed" && m.error_message.isSome) || !(m.status == "failed")

/-- `CONSTRAINT chk_chat_messages_source_payload_structure CHECK
(source_payload ? 'platform' AND source_payload ? 'message_id')`. -/
def chk_chat_messages_source_payload_structure (m : ChatMessageRow) : Bool :=
  jsonbHasKey m.source_payload "platform" && jsonbHasKey m.source_payload "message_id"

/-- All CHECK constraints of the `chat_messages` table. -/
def messageRowChecks (m : ChatMessageRow) : Bool :=
  chk_chat_messages_status_valid m &&
  chk_chat_messages_completed_integrity m &&
  chk_chat_messages_failed_integrity m &&
  chk_chat_messages_source_payload_structure m

/-- The deduplication key of `uq_chat_messages_source_platform_message_id`:
the pair `(source_payload->>'platform', source_payload->>'message_id')`. -/
def dedupKey (m : ChatMessageRow) : Option String × Option String :=
  (jsonbText m.source_payload "platform", jsonbText m.source_payload "message_id")

/-- Conflict under the unique index `uq_chat_messages_source_platform_message_id`
`ON chat_messages((source_payload->>'platform'),
(source_payload->>'message_id'))`: both indexed expressions are non-NULL
and pairwise equal (SQL treats NULLs as distinct in a unique index). -/
def dedupConflict (a b : ChatMessageRow) : Bool :=
  match dedupKey a, dedupKey b with
  | (some pa, some ma), (some pb, some mb) => pa == pb && ma == mb
  | _, _ => false

/-- The store state the resolver reads: the three reference tables. -/
structure DB where
  users : List UserRow
  applications : List ApplicationRow
  user_applications : List UserAppRow
  deriving Repr

/-- The record returned by `resolve_user_app_access` (`RETURNS TABLE
(user_id UUID, user_app_id UUID, app_id UUID, decision TEXT, user_status
TEXT, active_after TIMESTAMPTZ)`). -/
structure ResolveOutput where
  user_id : Option Nat
  user_app_id : Option Nat
  app_id : Option Nat
  decision : String
  user_status : Option String
  active_after : Option Int
  deriving Repr, DecidableEq

/-- Handle normalization of `resolve_user_app_access`:
`v_telegram_id := NULLIF(trim(p_telegram_id), '')`, then if non-NULL and
`left(v_telegram_id, 1) <> '@'`, prefix with `'@'`. -/
def normalizeHandle (p_telegram_id : Option String) : Option String :=
  match p_telegram_id with
  | none => none
  | some s =>
    let t := sqlTrim s
    if t == "" then none
    else if t.take 1 != "@" then some ("@" ++ t) else some t

/-- The application lookup: `SELECT a.app_id FROM applications a WHERE
a.app_name = p_app_name AND a.is_active = TRUE LIMIT 1`. -/
def lookupActiveApp (apps : List ApplicationRow) (p_app_name : String) : Option Nat :=
  (apps.find? (fun a => a.app_name == p_app_name && a.is_active)).map (fun a => a.app_id)

/-- The `WHERE` clause of the user lookup: `(p_telegram_user_id IS NOT NULL
AND u.telegram_user_id = p_telegram_user_id) OR (v_telegram_id IS NOT NULL
AND lower(u.telegram_id) = lower(v_telegram_id))`; a comparison against a
NULL column is not true. -/
def userMatches (p_telegram_user_id : Option Int) (v_telegram_id : Option String)
    (u : UserRow) : Bool :=
  (match p_telegram_user_id, u.telegram_user_id with
   | some pid, some uid => uid == pid
   | _, _ => false) ||
  (match v_telegram_id, u.telegram_id with
   | some h, some tid => sqlLower tid == sqlLower h
   | _, _ => false)

/-- The `ORDER BY` rank: `CASE WHEN p_telegram_user_id IS NOT NULL AND
u.telegram_user_id = p_telegram_user_id THEN 0 ELSE 1 END`. -/
def matchRank (p_telegram_user_id : Option Int) (u : UserRow) : Nat :=
  match p_telegram_user_id, u.telegram_user_id with
  | some pid, some uid => if uid == pid then 0 else 1
  | _, _ => 1

/-- Strict comparison under `ORDER BY rank, u.created_at ASC`. -/
def userKeyLt (p_telegram_user_id : Option Int) (a b : UserRow) : Bool :=
  matchRank p_telegram_user_id a < matchRank p_telegram_user_id b ||
  (matchRank p_telegram_user_id a == matchRank p_telegram_user_id b &&
   a.created_at < b.created_at)

/-- `LIMIT 1` after the `ORDER BY`: a row minimal under `userKeyLt` (ties
beyond `created_at` are unspecified in SQL; this model keeps the earliest
minimal row in table order). -/
def selectMin (p_telegram_user_id : Option Int) : List UserRow → Option UserRow
  | [] => none
  | u :: rest =>
    match selectMin p_telegram_user_id rest with
    | none => some u
    | some b => if userKeyLt p_telegram_user_id b u then some b else some u

/-- The full user lookup of `resolve_user_app_access`: filter by the
`WHERE` clause, then `ORDER BY rank, created_at ASC LIMIT 1`. -/
def selectUser (users : List UserRow) (p_telegram_user_id : Option Int)
    (v_telegram_id : Option String) : Option UserRow :=
  selectMin p_telegram_user_id (users.filter (userMatches p_telegram_user_id v_telegram_id))

/-- The suspension branch condition of `resolve_user_app_access`:
`v_user_status = 'suspended' AND v_active_after > NOW()` (a comparison
against a NULL `v_active_after` is not true). -/
def suspensionActive (u : UserRow) (now : Int) : Bool :=
  u.status == "suspended" &&
  (match u.active_after with
   | some t => now < t
   | none => false)

/-- `resolve_user_app_access(p_app_name, p_telegram_user_id, p_telegram_id)`
from migration 002, a read-only function of the store state `db` and the
query clock `now` (`NOW()`): normalize the handle; look up the active
application (`app_inactive` when absent); look up the user (`unknown_user`
when absent); branch on `blocked`, then on `suspended AND active_after >
NOW()`; look up the grant (`no_app_access` when absent); otherwise
`authorized`. -/
def resolve_user_app_access (db : DB) (p_app_name : String)
    (p_telegram_user_id : Option Int) (p_telegram_id : Option String)
    (now : Int) : ResolveOutput :=
  let v_telegram_id := normalizeHandle p_telegram_id
  match lookupActiveApp db.applications p_app_name with
  | none =>
    { user_id := none, user_app_id := none, app_id := none,
      decision := "app_inactive", user_status := none, active_after := none }
  | some v_app_id =>
    match selectUser db.users p_telegram_user_id v_telegram_id with
    | none =>
      { user_id := none, user_app_id := none, app_id := some v_app_id,
        decision := "unknown_user", user_status := none, active_after := none }
    | some u =>
      if u.status == "blocked" then
        { user_id := some u.user_id, user_app_id := none, app_id := some v_app_id,
          decision := "blocked", user_status := some u.status,
          active_after := u.active_after }
      else if suspensionActive u now then
        { user_id := some u.user_id, user_app_id := none, app_id := some v_app_id,
          decision := "suspended", user_status := some u.status,
          active_after := u.active_after }
      else
        match db.user_applications.find?
            (fun ua => ua.user_id == u.user_id && ua.app_id == v_app_id) with
        | none =>
          { user_id := some u.user_id, user_app_id := none, app_id := some v_app_id,
            decision := "no_app_access", user_status := some u.status,
            active_after := u.active_after }
        | some ua =>
          { user_id := some u.user_id, user_app_id := some ua.user_app_id,
            app_id := some v_app_id, decision := "authorized",
            user_status := some u.status, active_after := u.active_after }

/-- Result of the intake insert: either `RETURNING message_id` produced a
row (fresh), or `ON CONFLICT DO NOTHING` suppressed the insert and no row
was returned (the duplicate signal, carrying no identifier). -/
inductive RecordResult where
  | fresh (message_id : Nat)
  | duplicate
  deriving Repr, DecidableEq

/-- The intake insert of the Deanna plan (spec name `record_if_new`):
`INSERT INTO chat_messages (user_app_id, request_text, source_payload,
status) VALUES ($1, $2, $3, 'pending') ON CONFLICT
((source_payload->>'platform'), (source_payload->>'message_id')) DO
NOTHING RETURNING message_id`. A CHECK-constraint violation raises an
error before anything is written; a conflict with the unique dedup index
is swallowed (`DO NOTHING`, the store unchanged) and signalled as
duplicate; otherwise the pending row is stored and its fresh id
returned. -/
def record_if_new (db : List ChatMessageRow) (row : ChatMessageRow) :
    Except String (List ChatMessageRow × RecordResult) :=
  if !(messageRowChecks row) then .error "check constraint violation"
  else if db.any (fun r => dedupConflict r row) then .ok (db, .duplicate)
  else .ok (db ++ [row], .fresh row.message_id)

/-- The row produced by the completion `UPDATE`: `SET response_text = $2,
status = 'completed', responded_at = NOW()`. -/
def completeRow (response_text : String) (now : Int) (m : ChatMessageRow) :
    ChatMessageRow :=
  { m with
    response_text := some response_text,
    status := "completed",
    responded_at := some now }

/-- The completion statement (spec name `complete`): `UPDATE chat_messages
SET response_text = $2, status = 'completed', responded_at = NOW() WHERE
message_id = $1` — every row whose `message_id` matches is updated,
whatever its current status; the second component is the affected row
count the caller observes. -/
def complete (db : List ChatMessageRow) (message_id : Nat)
    (response_text : String) (now : Int) : List ChatMessageRow × Nat :=
  (db.map (fun m => if m.message_id == message_id
                    then completeRow response_text now m else m),
   (db.filter (fun m => m.message_id == message_id)).length)

/-- The row produced by the failure `UPDATE`: `SET status = 'failed',
error_message = $2`. -/
def failRow (error_message : String) (m : ChatMessageRow) : ChatMessageRow :=
  { m with status := "failed", error_message := some error_message }

/-- The failure statement (spec name `fail`): `UPDATE chat_messages SET
status = 'failed', error_message = $2 WHERE message_id = $1` — every row
whose `message_id` matches is updated, whatever its current status. -/
def fail (db : List ChatMessageRow) (message_id : Nat)
    (error_message : String) : List ChatMessageRow × Nat :=
  (db.map (fun m => if m.message_id == message_id
                    then failRow error_message m else m),
   (db.filter (fun m => m.message_id == message_id)).length)

/-- The invariant maintained by the unique deduplication index: no two
stored rows conflict, hence at most one row per (platform, message_id)
pair. -/
def dedupUnique (db : List ChatMessageRow) : Prop :=
  db.Pairwise (fun a b => dedupConflict a b = false)

/-- A key the CHECK constraint requires is extractable by `->>`. -/
lemma jsonbText_isSome_of_hasKey {p : List (String × String)} {k : String}
    (h : jsonbHasKey p k = true) : (jsonbText p k).isSome = true := by
  unfold jsonbHasKey at h
  unfold jsonbText
  rw [List.any_eq_true] at h
  obtain ⟨kv, hmem, hk⟩ := h
  have hf : (p.find? (fun kv => kv.1 == k)).isSome :=
    List.find?_isSome.mpr ⟨kv, hmem, hk⟩
  obtain ⟨x, hx⟩ := Option.isSome_iff_exists.mp hf
  rw [hx]
  rfl

lemma userKeyLt_iff (i : Option Int) (a b : UserRow) :
    userKeyLt i a b = true ↔
      (matchRank i a < matchRank i b ∨
       (matchRank i a = matchRank i b ∧ a.created_at < b.created_at)) := by
  simp [userKeyLt]

lemma userKeyLt_false_iff (i : Option Int) (a b : UserRow) :
    userKeyLt i a b = false ↔
      (matchRank i b ≤ matchRank i a ∧
       (matchRank i a = matchRank i b → b.created_at ≤ a.created_at)) := by
  rw [← Bool.not_eq_true, userKeyLt_iff]
  constructor
  · intro h
    push_neg at h
    omega
  · intro h
    push_neg
    omega

lemma userKeyLt_irrefl (i : Option Int) (a : UserRow) : userKeyLt i a a = false := by
  rw [userKeyLt_false_iff]
  omega

lemma userKeyLt_asymm (i : Option Int) {a b : UserRow}
    (h : userKeyLt i a b = true) : userKeyLt i b a = false := by
  rw [userKeyLt_iff] at h
  rw [userKeyLt_false_iff]
  omega

lemma userKeyLt_false_trans (i : Option Int) {a b c : UserRow}
    (hab : userKeyLt i a b = false) (hbc : userKeyLt i b c = false) :
    userKeyLt i a c = false := by
  rw [userKeyLt_false_iff] at hab hbc ⊢
  omega

lemma selectMin_cons_isSome (i : Option Int) (u : UserRow) (rest : List UserRow) :
    ∃ w, selectMin i (u :: rest) = some w := by
  simp only [selectMin]
  cases selectMin i rest with
  | none => exact ⟨u, rfl⟩
  | some b =>
    by_cases hba : userKeyLt i b u = true
    · exact ⟨b, by simp [hba]⟩
    · exact ⟨u, by simp [hba]⟩

lemma selectMin_mem (i : Option Int) :
    ∀ {us : List UserRow} {u : UserRow}, selectMin i us = some u → u ∈ us := by
  intro us
  induction us with
  | nil => intro u h; simp [selectMin] at h
  | cons a rest ih =>
    intro u h
    simp only [selectMin] at h
    split at h
    · simp only [Option.some.injEq] at h
      subst h
      exact List.mem_cons_self a rest
    · rename_i b hr
      split at h <;> simp only [Option.some.injEq] at h <;> subst h
      · exact List.mem_cons_of_mem a (ih hr)
      · exact List.mem_cons_self a rest

lemma selectMin_not_lt (i : Option Int) :
    ∀ {us : List UserRow} {u : UserRow}, selectMin i us = some u →
      ∀ v ∈ us, userKeyLt i v u = false := by
  intro us
  induction us with
  | nil => intro u h; simp [selectMin] at h
  | cons a rest ih =>
    intro u h v hv
    simp only [selectMin] at h
    split at h
    · rename_i hr
      simp only [Option.some.injEq] at h
      subst h
      have hrest : rest = [] := by
        cases hre : rest with
        | nil => rfl
        | cons x xs =>
          obtain ⟨w, hw⟩ := selectMin_cons_isSome i x xs
          rw [hre, hw] at hr
          cases hr
      subst hrest
      have hva : v = a := by simpa using hv
      subst hva
      exact userKeyLt_irrefl i v
    · rename_i b hr
      split at h <;> rename_i hba <;> simp only [Option.some.injEq] at h <;> subst h
      · rcases List.mem_cons.mp hv with hva | hvr
        · subst hva
          exact userKeyLt_asymm i hba
        · exact ih hr v hvr
      · have hba2 : userKeyLt i b a = false := by simpa using hba
        rcases List.mem_cons.mp hv with hva | hvr
        · subst hva
          exact userKeyLt_irrefl i v
        · exact userKeyLt_false_trans i (ih hr v hvr) hba2

lemma selectUser_mem {users : List UserRow} {i : Option Int}
    {h : Option String} {u : UserRow} (hs : selectUser users i h = some u) :
    u ∈ users ∧ userMatches i h u = true := by
  unfold selectUser at hs
  have := selectMin_mem i hs
  exact List.mem_filter.mp this

lemma selectUser_not_lt {users : List UserRow} {i : Option Int}
    {h : Option String} {u : UserRow} (hs : selectUser users i h = some u) :
    ∀ v ∈ users, userMatches i h v = true → userKeyLt i v u = false := by
  intro v hv hvm
  unfold selectUser at hs
  exact selectMin_not_lt i hs v (List.mem_filter.mpr ⟨hv, hvm⟩)

lemma matchRank_eq_zero_iff (pid : Int) (u : UserRow) :
    matchRank (some pid) u = 0 ↔ u.telegram_user_id = some pid := by
  unfold matchRank
  cases h : u.telegram_user_id with
  | none => simp
  | some uid =>
    by_cases he : uid = pid <;> simp [he]

lemma suspensionActive_eq_false_iff (u : UserRow) (now : Int) :
    suspensionActive u now = false ↔
      (u.status = "suspended" → ∀ t, u.active_after = some t → t ≤ now) := by
  unfold suspensionActive
  cases hta : u.active_after <;> by_cases hss : u.status = "suspended" <;>
    simp [hss]

lemma lookupActiveApp_some {apps : List ApplicationRow} {n : String} {v : Nat}
    (h : lookupActiveApp apps n = some v) :
    ∃ a ∈ apps, a.app_name = n ∧ a.is_active = true ∧ a.app_id = v := by
  unfold lookupActiveApp at h
  obtain ⟨a, hfind, hid⟩ := Option.map_eq_some'.mp h
  have hmem := List.mem_of_find?_eq_some hfind
  have hpred := List.find?_some hfind
  simp only [Bool.and_eq_true, beq_iff_eq] at hpred
  exact ⟨a, hmem, hpred.1, hpred.2, hid⟩

lemma resolve_eq_app_inactive {db : DB} {p_app_name : String}
    (p_telegram_user_id : Option Int) (p_telegram_id : Option String) (now : Int)
    (happ : lookupActiveApp db.applications p_app_name = none) :
    resolve_user_app_access db p_app_name p_telegram_user_id p_telegram_id now =
      { user_id := none, user_app_id := none, app_id := none,
        decision := "app_inactive", user_status := none, active_after := none } := by
  unfold resolve_user_app_access
  simp only [happ]

lemma resolve_eq_unknown_user {db : DB} {p_app_name : String}
    {p_telegram_user_id : Option Int} {p_telegram_id : Option String}
    (now : Int) {v_app_id : Nat}
    (happ : lookupActiveApp db.applications p_app_name = some v_app_id)
    (hsel : selectUser db.users p_telegram_user_id (normalizeHandle p_telegram_id) = none) :
    resolve_user_app_access db p_app_name p_telegram_user_id p_telegram_id now =
      { user_id := none, user_app_id := none, app_id := some v_app_id,
        decision := "unknown_user", user_status := none, active_after := none } := by
  unfold resolve_user_app_access
  simp only [happ, hsel]

lemma resolve_eq_blocked {db : DB} {p_app_name : String}
    {p_telegram_user_id : Option Int} {p_telegram_id : Option String}
    (now : Int) {v_app_id : Nat} {u : UserRow}
    (happ : lookupActiveApp db.applications p_app_name = some v_app_id)
    (hsel : selectUser db.users p_telegram_user_id (normalizeHandle p_telegram_id) = some u)
    (hb : u.status = "blocked") :
    resolve_user_app_access db p_app_name p_telegram_user_id p_telegram_id now =
      { user_id := some u.user_id, user_app_id := none, app_id := some v_app_id,
        decision := "blocked", user_status := some u.status,
        active_after := u.active_after } := by
  unfold resolve_user_app_access
  simp only [happ, hsel, hb]
  simp

lemma resolve_eq_suspended {db : DB} {p_app_name : String}
    {p_telegram_user_id : Option Int} {p_telegram_id : Option String}
    {now : Int} {v_app_id : Nat} {u : UserRow}
    (happ : lookupActiveApp db.applications p_app_name = some v_app_id)
    (hsel : selectUser db.users p_telegram_user_id (normalizeHandle p_telegram_id) = some u)
    (hnb : u.status ≠ "blocked")
    (hs : suspensionActive u now = true) :
    resolve_user_app_access db p_app_name p_telegram_user_id p_telegram_id now =
      { user_id := some u.user_id, user_app_id := none, app_id := some v_app_id,
        decision := "suspended", user_status := some u.status,
        active_after := u.active_after } := by
  unfold resolve_user_app_access
  simp only [happ, hsel, hs]
  rw [if_neg (by simpa using hnb)]
  simp

lemma resolve_eq_no_app_access {db : DB} {p_app_name : String}
    {p_telegram_user_id : Option Int} {p_telegram_id : Option String}
    {now : Int} {v_app_id : Nat} {u : UserRow}
    (happ : lookupActiveApp db.applications p_app_name = some v_app_id)
    (hsel : selectUser db.users p_telegram_user_id (normalizeHandle p_telegram_id) = some u)
    (hnb : u.status ≠ "blocked")
    (hs : suspensionActive u now = false)
    (hua : db.user_applications.find?
      (fun ua => ua.user_id == u.user_id && ua.app_id == v_app_id) = none) :
    resolve_user_app_access db p_app_name p_telegram_user_id p_telegram_id now =
      { user_id := some u.user_id, user_app_id := none, app_id := some v_app_id,
        decision := "no_app_access", user_status := some u.status,
        active_after := u.active_after } := by
  unfold resolve_user_app_access
  simp only [happ, hsel, hs, hua]
  rw [if_neg (by simpa using hnb)]
  simp

lemma resolve_eq_authorized {db : DB} {p_app_name : String}
    {p_telegram_user_id : Option Int} {p_telegram_id : Option String}
    {now : Int} {v_app_id : Nat} {u : UserRow} {ua : UserAppRow}
    (happ : lookupActiveApp db.applications p_app_name = some v_app_id)
    (hsel : selectUser db.users p_telegram_user_id (normalizeHandle p_telegram_id) = some u)
    (hnb : u.status ≠ "blocked")
    (hs : suspensionActive u now = false)
    (hua : db.user_applications.find?
      (fun x => x.user_id == u.user_id && x.app_id == v_app_id) = some ua) :
    resolve_user_app_access db p_app_name p_telegram_user_id p_telegram_id now =
      { user_id := some u.user_id, user_app_id := some ua.user_app_id,
        app_id := some v_app_id, decision := "authorized",
        user_status := some u.status, active_after := u.active_after } := by
  unfold resolve_user_app_access
  simp only [happ, hsel, hs, hua]
  rw [if_neg (by simpa using hnb)]
  simp

/-- A stored pending intake row: payload platform `telegram`, platform
message id `123`. -/
def msgStored : ChatMessageRow :=
  { message_id := 11, user_app_id := 9, request_text := "hi",
    response_text := none, alt_response_text := none,
    source_payload := [("platform", "telegram"), ("message_id", "123")],
    status := "pending", error_message := none,
    requested_at := 10, responded_at := none }

/-- The same stored exchange after completion: status `completed`,
response text `first reply` recorded at time 50. -/
def msgCompleted : ChatMessageRow :=
  { message_id := 11, user_app_id := 9, request_text := "hi",
    response_text := some "first reply", alt_response_text := none,
    source_payload := [("platform", "telegram"), ("message_id", "123")],
    status := "completed", error_message := none,
    requested_at := 10, responded_at := some 50 }

/-- A retried webhook delivery of the same platform message: same
deduplication key `(telegram, 123)`, fresh candidate row. -/
def msgRetry : ChatMessageRow :=
  { message_id := 12, user_app_id := 9, request_text := "hi",
    response_text := none, alt_response_text := none,
    source_payload := [("platform", "telegram"), ("message_id", "123")],
    status := "pending", error_message := none,
    requested_at := 20, responded_at := none }

/-- An account in status `active` that nevertheless carries a non-null
`active_after` timestamp. -/
def activeWithTimestamp : UserRow :=
  { user_id := 21, telegram_id := some "@dave", phone_number := none,
    email := none, display_name := "Dave", is_admin := false,
    status := "active", active_after := some 100, created_at := 10,
    telegram_user_id := none }

/-- A suspended account whose `active_after` (time 50) lies in the past of
the query clock used in the scenarios (time 100). -/
def suspendedUser : UserRow :=
  { user_id := 3, telegram_id := some "@carol", phone_number := none,
    email := none, display_name := "Carol", is_admin := false,
    status := "suspended", active_after := some 50, created_at := 30,
    telegram_user_id := some 7 }

/-- C1, claim as stated is false on the code: the completion and failure
statements carry no `status = 'pending'` guard, so on a message already in
the terminal state `completed` a second `complete` reports one affected
row (no conflict signal) and overwrites the stored response text and
response timestamp, and `fail` likewise flips the stored status to
`failed`. -/
theorem complete_after_complete_overwrites :
    msgCompleted.status = "completed" ∧
    (complete [msgCompleted] 11 "second reply" 60).2 = 1 ∧
    (complete [msgCompleted] 11 "second reply" 60).1 =
      [{ msgCompleted with
          response_text := some "second reply",
          responded_at := some 60 }] ∧
    (fail [msgCompleted] 11 "boom").2 = 1 ∧
    (fail [msgCompleted] 11 "boom").1 =
      [{ msgCompleted with
          status := "failed",
          error_message := some "boom" }] := by
  refine ⟨rfl, rfl, ?_, rfl, ?_⟩ <;> decide

/-- C1 (amended): `complete` and `fail` update a stored message
unconditionally by `message_id` — whatever the current status, including
the terminal states, the matching row is rewritten by the corresponding
`SET` clause and the caller observes an affected-row count of at least
one; no conflict signal exists in the code. -/
theorem complete_and_fail_update_unconditionally
    (db : List ChatMessageRow) (m : ChatMessageRow)
    (resp err : String) (now : Int) (hm : m ∈ db) :
    completeRow resp now m ∈ (complete db m.message_id resp now).1 ∧
    1 ≤ (complete db m.message_id resp now).2 ∧
    failRow err m ∈ (fail db m.message_id err).1 ∧
    1 ≤ (fail db m.message_id err).2 := by
  have hmf : m ∈ db.filter (fun x => x.message_id == m.message_id) :=
    List.mem_filter.mpr ⟨hm, by simp⟩
  have hlen : 0 < (db.filter (fun x => x.message_id == m.message_id)).length :=
    List.length_pos.mpr (List.ne_nil_of_mem hmf)
  refine ⟨?_, ?_, ?_, ?_⟩
  · exact List.mem_map.mpr ⟨m, hm, by simp⟩
  · simpa [complete] using hlen
  · exact List.mem_map.mpr ⟨m, hm, by simp⟩
  · simpa [fail] using hlen

/-- C1 witness: the amended statement evaluated on the concrete
already-completed message. -/
theorem complete_and_fail_update_unconditionally_witness :
    completeRow "second reply" 60 msgCompleted ∈
      (complete [msgCompleted] msgCompleted.message_id "second reply" 60).1 ∧
    1 ≤ (complete [msgCompleted] msgCompleted.message_id "second reply" 60).2 ∧
    failRow "boom" msgCompleted ∈
      (fail [msgCompleted] msgCompleted.message_id "boom").1 ∧
    1 ≤ (fail [msgCompleted] msgCompleted.message_id "boom").2 :=
  complete_and_fail_update_unconditionally [msgCompleted] msgCompleted
    "second reply" "boom" 60 (List.mem_singleton.mpr rfl)

/-- C2: `record_if_new` is idempotent on the deduplication key — when a
row with the same `(source_payload->>'platform',
source_payload->>'message_id')` pair is already stored, the call returns
the duplicate signal (no new identifier), raises no uniqueness-violation
error, and leaves the store — hence the original row's `message_id` and
`status` — unchanged; and every successful `record_if_new` call preserves
the at-most-one-row-per-key invariant. -/
theorem record_if_new_duplicate_noop
    (db : List ChatMessageRow) (r row : ChatMessageRow)
    (db2 db2' : List ChatMessageRow) (row2 : ChatMessageRow)
    (res : RecordResult)
    (hr : r ∈ db) (hkey : dedupKey row = dedupKey r)
    (hchk : messageRowChecks row = true)
    (huniq : dedupUnique db2)
    (hrec : record_if_new db2 row2 = .ok (db2', res)) :
    record_if_new db row = .ok (db, .duplicate) ∧ dedupUnique db2' := by
  constructor
  · have hpm : jsonbHasKey row.source_payload "platform" = true ∧
        jsonbHasKey row.source_payload "message_id" = true := by
      unfold messageRowChecks chk_chat_messages_source_payload_structure at hchk
      simp only [Bool.and_eq_true] at hchk
      exact hchk.2
    obtain ⟨p, hp⟩ := Option.isSome_iff_exists.mp (jsonbText_isSome_of_hasKey hpm.1)
    obtain ⟨q, hq⟩ := Option.isSome_iff_exists.mp (jsonbText_isSome_of_hasKey hpm.2)
    have hkrow : dedupKey row = (some p, some q) := by
      unfold dedupKey
      rw [hp, hq]
    have hkr : dedupKey r = (some p, some q) := by
      rw [← hkey, hkrow]
    have hconfl : dedupConflict r row = true := by
      unfold dedupConflict
      rw [hkr, hkrow]
      simp
    have hany : db.any (fun x => dedupConflict x row) = true :=
      List.any_eq_true.mpr ⟨r, hr, hconfl⟩
    unfold record_if_new
    rw [hchk, hany]
    rfl
  · unfold record_if_new at hrec
    split at hrec
    · cases hrec
    · split at hrec
      · rw [Except.ok.injEq, Prod.mk.injEq] at hrec
        rw [← hrec.1]
        exact huniq
      · rename_i hnc
        rw [Except.ok.injEq, Prod.mk.injEq] at hrec
        rw [← hrec.1]
        rw [dedupUnique, List.pairwise_append]
        refine ⟨huniq, List.pairwise_singleton _ _, ?_⟩
        intro a ha b hb
        have hb2 : b = row2 := by simpa using hb
        rw [hb2]
        have hfalse : db2.any (fun x => dedupConflict x row2) = false := by
          simpa using hnc
        rw [List.any_eq_false] at hfalse
        simpa using hfalse a ha

/-- C2 witness: a second delivery of platform message `(telegram, 123)`
returns the duplicate signal and leaves the singleton store unchanged. -/
theorem record_if_new_duplicate_noop_witness :
    record_if_new [msgStored] msgRetry = .ok ([msgStored], .duplicate) ∧
    dedupUnique [msgStored] :=
  record_if_new_duplicate_noop [msgStored] msgStored msgRetry [msgStored]
    [msgStored] msgRetry .duplicate (List.mem_singleton.mpr rfl) rfl rfl
    (by simp [dedupUnique]) rfl

/-- An account addressed only by phone number: no handle, no stable
numeric identifier. -/
def phoneOnlyUser : UserRow :=
  { user_id := 22, telegram_id := none, phone_number := some "393247766945",
    email := none, display_name := "Phil", is_admin := false,
    status := "active", active_after := none, created_at := 15,
    telegram_user_id := none }

/-- The handle `@pocmior` in its stored lowercase form. -/
def pocmiorLower : UserRow :=
  { user_id := 31, telegram_id := some "@pocmior", phone_number := none,
    email := none, display_name := "Pocmior", is_admin := false,
    status := "active", active_after := none, created_at := 40,
    telegram_user_id := none }

/-- The same handle in a different letter casing, `@Pocmior`, on a second
account. -/
def pocmiorUpper : UserRow :=
  { user_id := 32, telegram_id := some "@Pocmior", phone_number := none,
    email := none, display_name := "Pocmior2", is_admin := false,
    status := "active", active_after := none, created_at := 41,
    telegram_user_id := none }

/-- C3, claim as stated is false on the code:
`chk_users_suspended_active_after` enforces only the forward direction.
The row `activeWithTimestamp` has status `active` together with a non-null
`active_after`, passes every CHECK constraint of the `users` table, and is
accepted by the store — it is not rejected at the constraint level. -/
theorem active_with_reactivate_at_accepted :
    userRowChecks activeWithTimestamp = true ∧
    insertUser [] activeWithTimestamp = .ok [activeWithTimestamp] ∧
    activeWithTimestamp.status ≠ "suspended" ∧
    activeWithTimestamp.active_after ≠ none := by
  refine ⟨rfl, rfl, ?_, ?_⟩ <;> decide

/-- C3 (amended): the constraint is one-directional — every account row
the store accepts with status `suspended` has a non-null `active_after`,
but a non-suspended row may carry any `active_after` value. -/
theorem suspended_row_has_reactivate_at (u : UserRow)
    (h : userRowChecks u = true) (hs : u.status = "suspended") :
    u.active_after.isSome = true := by
  have h3 : chk_users_suspended_active_after u = true := by
    unfold userRowChecks at h
    simp only [Bool.and_eq_true] at h
    exact h.2
  unfold chk_users_suspended_active_after at h3
  rw [hs] at h3
  simpa using h3

/-- C3 witness: the forward direction evaluated on the concrete suspended
account. -/
theorem suspended_row_has_reactivate_at_witness :
    suspendedUser.active_after.isSome = true :=
  suspended_row_has_reactivate_at suspendedUser rfl rfl

/-- C8, claim as stated is false on the code: `users.telegram_id` is a
plain (case-sensitive) `UNIQUE` column, so the store accepts `@Pocmior`
alongside the already-stored `@pocmior` — two accounts whose handles
differ only in letter casing coexist; the insert of the casing variant is
not rejected. -/
theorem case_variant_handle_insert_accepted :
    insertUser [pocmiorLower] pocmiorUpper = .ok [pocmiorLower, pocmiorUpper] ∧
    sqlLower "@Pocmior" = sqlLower "@pocmior" ∧
    pocmiorLower.telegram_id ≠ pocmiorUpper.telegram_id := by
  refine ⟨rfl, ?_, ?_⟩ <;> decide

/-- C8 (amended): the store-level uniqueness on `telegram_id` is
exact-match — inserting a second account whose `telegram_id` is the very
same string as a stored one is rejected by the unique constraint (while
casing variants are distinct strings and pass, as the counterexample
shows; only the resolver's `lower()` comparison treats them alike). -/
theorem telegram_id_unique_exact_match
    (db : List UserRow) (v u : UserRow) (s : String)
    (hv : v ∈ db) (hvs : v.telegram_id = some s) (hus : u.telegram_id = some s) :
    ∃ e, insertUser db u = .error e := by
  by_cases hchk : userRowChecks u = true
  · have hconfl : userUniqueConflict v u = true := by
      unfold userUniqueConflict
      rw [hvs, hus]
      simp
    have hany : db.any (fun x => userUniqueConflict x u) = true :=
      List.any_eq_true.mpr ⟨v, hv, hconfl⟩
    refine ⟨"unique constraint violation", ?_⟩
    unfold insertUser
    rw [hchk, hany]
    rfl
  · refine ⟨"check constraint violation", ?_⟩
    unfold insertUser
    have : userRowChecks u = false := by simpa using hchk
    rw [this]
    rfl

/-- C8 witness: re-inserting the exact handle string `@pocmior` is
rejected at the store level. -/
theorem telegram_id_unique_exact_match_witness :
    ∃ e, insertUser [pocmiorLower]
      { pocmiorLower with user_id := 33, display_name := "Clone" } = .error e :=
  telegram_id_unique_exact_match [pocmiorLower]
    pocmiorLower { pocmiorLower with user_id := 33, display_name := "Clone" }
    "@pocmior" (List.mem_singleton.mpr rfl) rfl rfl

/-- C9, claim as stated is false on the code:
`chk_users_contact_method_required` demands `telegram_id OR phone_number`,
not handle-or-stable-numeric-id. The row `phoneOnlyUser` carries neither
the platform handle nor the platform-stable numeric identifier, yet passes
every CHECK constraint and is accepted by the store. -/
theorem phone_only_user_accepted :
    userRowChecks phoneOnlyUser = true ∧
    insertUser [] phoneOnlyUser = .ok [phoneOnlyUser] ∧
    phoneOnlyUser.telegram_id = none ∧
    phoneOnlyUser.telegram_user_id = none := by
  exact ⟨rfl, rfl, rfl, rfl⟩

/-- C9 (amended): every account row the store accepts has at least one of
`telegram_id` (the platform-mutable handle) or `phone_number` present; the
platform-stable numeric identifier `telegram_user_id` is optional and not
part of the contact-method constraint. -/
theorem contact_method_requires_handle_or_phone (u : UserRow)
    (h : userRowChecks u = true) :
    u.telegram_id.isSome = true ∨ u.phone_number.isSome = true := by
  have h1 : chk_users_contact_method_required u = true := by
    unfold userRowChecks at h
    simp only [Bool.and_eq_true] at h
    exact h.1.1
  unfold chk_users_contact_method_required at h1
  rcases Bool.or_eq_true_iff.mp h1 with h2 | h2
  · exact Or.inl h2
  · exact Or.inr h2

/-- C9 witness: the amended statement evaluated on the concrete
handle-only account `@pocmior`. -/
theorem contact_method_requires_handle_or_phone_witness :
    pocmiorLower.telegram_id.isSome = true ∨
    pocmiorLower.phone_number.isSome = true :=
  contact_method_requires_handle_or_phone pocmiorLower rfl

/-- The `deanna` application, active. -/
def appDeanna : ApplicationRow :=
  { app_id := 7, app_name := "deanna", is_active := true }

/-- The `deanna` application, deactivated. -/
def appDisabled : ApplicationRow :=
  { app_id := 5, app_name := "deanna", is_active := false }

/-- The grant linking `suspendedUser` to `appDeanna`. -/
def grantCarol : UserAppRow :=
  { user_app_id := 9, user_id := 3, app_id := 7 }

/-- A store in which the suspended account `@carol` holds a grant for the
active `deanna` application. -/
def dbSuspendedGrant : DB :=
  { users := [suspendedUser], applications := [appDeanna],
    user_applications := [grantCarol] }

/-- A store whose only `deanna` application row is inactive. -/
def dbDisabledApp : DB :=
  { users := [pocmiorLower], applications := [appDisabled],
    user_applications := [] }

/-- Account A: matched by the stable numeric id 42, created later (time
200). -/
def userA : UserRow :=
  { user_id := 1, telegram_id := some "@alice", phone_number := none,
    email := none, display_name := "Alice", is_admin := false,
    status := "active", active_after := none, created_at := 200,
    telegram_user_id := some 42 }

/-- Account B: matched by the handle `@bob`, created earlier (time 100),
no stable numeric id. -/
def userB : UserRow :=
  { user_id := 2, telegram_id := some "@bob", phone_number := none,
    email := none, display_name := "Bob", is_admin := false,
    status := "active", active_after := none, created_at := 100,
    telegram_user_id := none }

/-- C4: for every store state and input — including both identity fields
absent — `resolve_user_app_access` returns exactly one of the six decision
codes (it is a total function, so it never errors), and it returns
`authorized` only when an active application of that name exists, a user
matching the supplied identity was selected, that user is not blocked, any
suspension has expired by the query clock, and a grant row for that user
and application exists — never by default. -/
theorem resolve_total_and_fail_closed (db : DB) (p_app_name : String)
    (p_telegram_user_id : Option Int) (p_telegram_id : Option String)
    (now : Int) :
    ((resolve_user_app_access db p_app_name p_telegram_user_id p_telegram_id now).decision = "authorized" ∨
     (resolve_user_app_access db p_app_name p_telegram_user_id p_telegram_id now).decision = "unknown_user" ∨
     (resolve_user_app_access db p_app_name p_telegram_user_id p_telegram_id now).decision = "blocked" ∨
     (resolve_user_app_access db p_app_name p_telegram_user_id p_telegram_id now).decision = "suspended" ∨
     (resolve_user_app_access db p_app_name p_telegram_user_id p_telegram_id now).decision = "app_inactive" ∨
     (resolve_user_app_access db p_app_name p_telegram_user_id p_telegram_id now).decision = "no_app_access") ∧
    ((resolve_user_app_access db p_app_name p_telegram_user_id p_telegram_id now).decision = "authorized" →
      ∃ a ∈ db.applications, a.app_name = p_app_name ∧ a.is_active = true ∧
      ∃ u ∈ db.users,
        userMatches p_telegram_user_id (normalizeHandle p_telegram_id) u = true ∧
        u.status ≠ "blocked" ∧
        (u.status = "suspended" → ∀ t, u.active_after = some t → t ≤ now) ∧
        ∃ ua ∈ db.user_applications, ua.user_id = u.user_id ∧ ua.app_id = a.app_id) := by
  cases happ : lookupActiveApp db.applications p_app_name with
  | none =>
    rw [resolve_eq_app_inactive p_telegram_user_id p_telegram_id now happ]
    exact ⟨by simp, fun hc => by simp at hc⟩
  | some v_app_id =>
    cases hsel : selectUser db.users p_telegram_user_id (normalizeHandle p_telegram_id) with
    | none =>
      rw [resolve_eq_unknown_user now happ hsel]
      exact ⟨by simp, fun hc => by simp at hc⟩
    | some u =>
      by_cases hb : u.status = "blocked"
      · rw [resolve_eq_blocked now happ hsel hb]
        exact ⟨by simp, fun hc => by simp at hc⟩
      · cases hs : suspensionActive u now with
        | true =>
          rw [resolve_eq_suspended happ hsel hb hs]
          exact ⟨by simp, fun hc => by simp at hc⟩
        | false =>
          cases hua : db.user_applications.find?
              (fun x => x.user_id == u.user_id && x.app_id == v_app_id) with
          | none =>
            rw [resolve_eq_no_app_access happ hsel hb hs hua]
            exact ⟨by simp, fun hc => by simp at hc⟩
          | some ua =>
            rw [resolve_eq_authorized happ hsel hb hs hua]
            refine ⟨by simp, fun _ => ?_⟩
            obtain ⟨a, hamem, haname, haact, haid⟩ := lookupActiveApp_some happ
            obtain ⟨humem, hum⟩ := selectUser_mem hsel
            have huamem := List.mem_of_find?_eq_some hua
            have huapred := List.find?_some hua
            simp only [Bool.and_eq_true, beq_iff_eq] at huapred
            exact ⟨a, hamem, haname, haact, u, humem, hum, hb,
              (suspensionActive_eq_false_iff u now).mp hs,
              ua, huamem, huapred.1, huapred.2.trans haid.symm⟩

/-- C4 witness: the six-code totality conjunct evaluated on the concrete
expired-suspension store. -/
theorem resolve_total_and_fail_closed_witness :
    (resolve_user_app_access dbSuspendedGrant "deanna" (some 7) none 100).decision = "authorized" ∨
    (resolve_user_app_access dbSuspendedGrant "deanna" (some 7) none 100).decision = "unknown_user" ∨
    (resolve_user_app_access dbSuspendedGrant "deanna" (some 7) none 100).decision = "blocked" ∨
    (resolve_user_app_access dbSuspendedGrant "deanna" (some 7) none 100).decision = "suspended" ∨
    (resolve_user_app_access dbSuspendedGrant "deanna" (some 7) none 100).decision = "app_inactive" ∨
    (resolve_user_app_access dbSuspendedGrant "deanna" (some 7) none 100).decision = "no_app_access" :=
  (resolve_total_and_fail_closed dbSuspendedGrant "deanna" (some 7) none 100).1

/-- C5: when the supplied stable numeric id matches account `A` (and `A`
is the only such account, as the partial unique index on
`telegram_user_id` guarantees), the user lookup selects `A` whatever the
handle matches — the numeric id outranks the handle in the `ORDER BY`; and
whenever the lookup selects a row, every other candidate of the same rank
has a creation timestamp no earlier than the selected row's. -/
theorem stable_id_wins_then_earliest_created
    (users : List UserRow) (pid : Int) (h : Option String) (A : UserRow)
    (users2 : List UserRow) (i2 : Option Int) (h2 : Option String)
    (u v : UserRow)
    (hA : A ∈ users) (hAid : A.telegram_user_id = some pid)
    (huniq : ∀ w ∈ users, w.telegram_user_id = some pid → w = A)
    (hsel2 : selectUser users2 i2 h2 = some u)
    (hv : v ∈ users2) (hvm : userMatches i2 h2 v = true)
    (hrank : matchRank i2 u = matchRank i2 v) :
    selectUser users (some pid) h = some A ∧ u.created_at ≤ v.created_at := by
  constructor
  · have hAm : userMatches (some pid) h A = true := by
      unfold userMatches
      rw [hAid]
      simp
    have hAf : A ∈ users.filter (userMatches (some pid) h) :=
      List.mem_filter.mpr ⟨hA, hAm⟩
    cases hsel : selectUser users (some pid) h with
    | none =>
      exfalso
      unfold selectUser at hsel
      obtain ⟨x, xs, hxx⟩ := List.exists_cons_of_ne_nil (List.ne_nil_of_mem hAf)
      rw [hxx] at hsel
      obtain ⟨w, hw⟩ := selectMin_cons_isSome (some pid) x xs
      rw [hw] at hsel
      cases hsel
    | some w =>
      have hnot := selectUser_not_lt hsel A hA hAm
      have hwmem := (selectUser_mem hsel).1
      have hrA : matchRank (some pid) A = 0 := (matchRank_eq_zero_iff pid A).mpr hAid
      rw [userKeyLt_false_iff] at hnot
      have hn1 := hnot.1
      have hrw : matchRank (some pid) w = 0 := by omega
      have hwid := (matchRank_eq_zero_iff pid w).mp hrw
      exact congrArg some (huniq w hwmem hwid)
  · have hnot2 := selectUser_not_lt hsel2 v hv hvm
    rw [userKeyLt_false_iff] at hnot2
    exact hnot2.2 hrank.symm

/-- C5 witness: numeric id 42 matches the later-created account A while
the handle matches account B — A is selected; and among two equal-rank
handle candidates the earlier-created row is selected. -/
theorem stable_id_wins_then_earliest_created_witness :
    selectUser [userA, userB] (some 42) (some "@bob") = some userA ∧
    pocmiorLower.created_at ≤ pocmiorUpper.created_at :=
  stable_id_wins_then_earliest_created [userA, userB] 42 (some "@bob") userA
    [pocmiorLower, pocmiorUpper] none (some "@Pocmior") pocmiorLower
    pocmiorUpper (by decide) rfl (by decide) rfl (by decide) rfl rfl

/-- C6: a suspended account whose `active_after` has passed the query
clock is treated as active — the resolution falls through to the grant
check, and with an existing grant the decision is `authorized`, not
`suspended`; the resolver reads the store and returns a record only (no
write-back of the stored status). -/
theorem expired_suspension_falls_through_to_grant
    (db : DB) (p_app_name : String) (p_telegram_user_id : Option Int)
    (p_telegram_id : Option String) (now t : Int) (v_app_id : Nat)
    (u : UserRow) (ua : UserAppRow)
    (happ : lookupActiveApp db.applications p_app_name = some v_app_id)
    (hsel : selectUser db.users p_telegram_user_id (normalizeHandle p_telegram_id) = some u)
    (hstat : u.status = "suspended")
    (hta : u.active_after = some t)
    (hpast : t ≤ now)
    (hua : db.user_applications.find?
      (fun x => x.user_id == u.user_id && x.app_id == v_app_id) = some ua) :
    resolve_user_app_access db p_app_name p_telegram_user_id p_telegram_id now =
      { user_id := some u.user_id, user_app_id := some ua.user_app_id,
        app_id := some v_app_id, decision := "authorized",
        user_status := some u.status, active_after := u.active_after } ∧
    (resolve_user_app_access db p_app_name p_telegram_user_id p_telegram_id now).decision ≠ "suspended" := by
  have hnb : u.status ≠ "blocked" := by
    rw [hstat]
    decide
  have hsf : suspensionActive u now = false := by
    rw [suspensionActive_eq_false_iff]
    intro _ s hsa
    rw [hta] at hsa
    cases hsa
    exact hpast
  have heq := resolve_eq_authorized happ hsel hnb hsf hua
  refine ⟨heq, ?_⟩
  rw [heq]
  simp

/-- C6 witness: account suspended until time 50, queried at time 100 with
a grant in place — the decision is `authorized`. -/
theorem expired_suspension_falls_through_to_grant_witness :
    resolve_user_app_access dbSuspendedGrant "deanna" (some 7) none 100 =
      { user_id := some 3, user_app_id := some 9, app_id := some 7,
        decision := "authorized", user_status := some "suspended",
        active_after := some 50 } ∧
    (resolve_user_app_access dbSuspendedGrant "deanna" (some 7) none 100).decision ≠ "suspended" :=
  expired_suspension_falls_through_to_grant dbSuspendedGrant "deanna"
    (some 7) none 100 50 7 suspendedUser grantCarol rfl rfl rfl rfl
    (by decide) rfl

/-- C7: when no active application with the given name exists, the
decision is `app_inactive` with all other output fields null, for every
identity input — even an arbitrary or invalid handle — because the
application check precedes identity resolution. -/
theorem inactive_app_shortcircuits_identity
    (db : DB) (p_app_name : String) (p_telegram_user_id : Option Int)
    (p_telegram_id : Option String) (now : Int)
    (hnone : ∀ a ∈ db.applications, ¬(a.app_name = p_app_name ∧ a.is_active = true)) :
    resolve_user_app_access db p_app_name p_telegram_user_id p_telegram_id now =
      { user_id := none, user_app_id := none, app_id := none,
        decision := "app_inactive", user_status := none, active_after := none } := by
  have hpred : ∀ a ∈ db.applications, ¬(a.app_name == p_app_name && a.is_active) = true := by
    intro a ha hc
    simp only [Bool.and_eq_true, beq_iff_eq] at hc
    exact hnone a ha ⟨hc.1, hc.2⟩
  have happ : lookupActiveApp db.applications p_app_name = none := by
    unfold lookupActiveApp
    rw [List.find?_eq_none.mpr hpred]
    rfl
  exact resolve_eq_app_inactive p_telegram_user_id p_telegram_id now happ

/-- C7 witness: the store holds only an inactive `deanna` row; a garbage
handle and an unknown numeric id still yield `app_inactive` with null
fields. -/
theorem inactive_app_shortcircuits_identity_witness :
    resolve_user_app_access dbDisabledApp "deanna" (some 999) (some "!!garbage!!") 100 =
      { user_id := none, user_app_id := none, app_id := none,
        decision := "app_inactive", user_status := none, active_after := none } :=
  inactive_app_shortcircuits_identity dbDisabledApp "deanna" (some 999)
    (some "!!garbage!!") 100 (by decide)

/-- C10: on an expired suspension with a grant, the returned record pairs
decision `authorized` with the stored account status reported verbatim —
`user_status` is still `suspended` and `active_after` the stored past
timestamp — so decision `authorized` does not imply `user_status =
active`. -/
theorem authorized_reports_stored_status_verbatim
    (db : DB) (p_app_name : String) (p_telegram_user_id : Option Int)
    (p_telegram_id : Option String) (now t : Int) (v_app_id : Nat)
    (u : UserRow) (ua : UserAppRow)
    (happ : lookupActiveApp db.applications p_app_name = some v_app_id)
    (hsel : selectUser db.users p_telegram_user_id (normalizeHandle p_telegram_id) = some u)
    (hstat : u.status = "suspended")
    (hta : u.active_after = some t)
    (hpast : t ≤ now)
    (hua : db.user_applications.find?
      (fun x => x.user_id == u.user_id && x.app_id == v_app_id) = some ua) :
    (resolve_user_app_access db p_app_name p_telegram_user_id p_telegram_id now).decision = "authorized" ∧
    (resolve_user_app_access db p_app_name p_telegram_user_id p_telegram_id now).user_status = some "suspended" ∧
    (resolve_user_app_access db p_app_name p_telegram_user_id p_telegram_id now).active_after = some t := by
  have hnb : u.status ≠ "blocked" := by
    rw [hstat]
    decide
  have hsf : suspensionActive u now = false := by
    rw [suspensionActive_eq_false_iff]
    intro _ s hsa
    rw [hta] at hsa
    cases hsa
    exact hpast
  have heq := resolve_eq_authorized happ hsel hnb hsf hua
  rw [heq]
  refine ⟨rfl, ?_, hta⟩
  exact congrArg some hstat

/-- C10 witness: the concrete expired-suspension store queried by handle —
decision `authorized`, `user_status` still `suspended`, `active_after`
still the stored time 50. -/
theorem authorized_reports_stored_status_verbatim_witness :
    (resolve_user_app_access dbSuspendedGrant "deanna" none (some "carol") 100).decision = "authorized" ∧
    (resolve_user_app_access dbSuspendedGrant "deanna" none (some "carol") 100).user_status = some "suspended" ∧
    (resolve_user_app_access dbSuspendedGrant "deanna" none (some "carol") 100).active_after = some 50 :=
  authorized_reports_stored_status_verbatim dbSuspendedGrant "deanna" none
    (some "carol") 100 50 7 suspendedUser grantCarol rfl rfl rfl rfl
    (by decide) rfl

end Zenaflow
